import Mathlib

/-!
Shallow embedding of the MovieMind natural-language search pipeline
(`src/database/db_manager.py`: `ai_search`, `_parse_ai_response`,
`_execute_ai_sql`, `search_movies`) and of the introduction cache loader
(`src/backend/utils/intro_loader.py`).

External collaborators (the DEEPSEEK HTTP endpoint, `json.loads`, the
openGauss store reached through `execute_query`) are modelled as explicit
function parameters; the store may fail, which is modelled with `Except`.
Python strings are modelled as Lean `String` (a list of characters), and
the Python `str` operations used by the source (`strip`, `upper`,
`startswith`, `find`, `rstrip(',')`, slicing) are defined below on the
character list, mirroring CPython semantics on the relevant inputs
(`upper` is modelled character-wise, which agrees with CPython on ASCII
and on CJK text).
-/

/-- The characters Python `str.strip()` removes (ASCII whitespace). -/
def isPyWs (c : Char) : Bool :=
  c = ' ' || c = '\t' || c = '\n' || c = '\r' || c = '\x0b' || c = '\x0c'

/-- Python `str.strip()` on a character list. -/
def pyStripL (l : List Char) : List Char :=
  ((l.dropWhile isPyWs).reverse.dropWhile isPyWs).reverse

/-- Python `str.strip()`. -/
def pyStrip (s : String) : String := String.mk (pyStripL s.toList)

/-- Python `str.upper()`, character-wise (agrees with CPython on ASCII). -/
def pyUpper (s : String) : String := String.mk (s.toList.map Char.toUpper)

/-- Python `s.startswith(pre)`. -/
def pyStartsWith (s pre : String) : Bool := pre.toList.isPrefixOf s.toList

/-- Helper for Python `str.find`: leftmost index at which `needle` occurs. -/
def findSubL (needle : List Char) : List Char → Nat → Option Nat
  | [], i => if needle = [] then some i else none
  | c :: rest, i =>
    if needle.isPrefixOf (c :: rest) then some i
    else findSubL needle rest (i + 1)

/-- Python `s.find(sub)`; `none` models the return value `-1`. -/
def pyFind (s sub : String) : Option Nat := findSubL sub.toList s.toList 0

/-- Python `s.rstrip(',')`. -/
def pyRstripComma (s : String) : String :=
  String.mk (s.toList.reverse.dropWhile (fun c => c = ',')).reverse

/-- Python slice `s[n:]`. -/
def strDrop (s : String) (n : Nat) : String := String.mk (s.toList.drop n)

/-- Python slice `s[:n]`. -/
def strTake (s : String) (n : Nat) : String := String.mk (s.toList.take n)

/-- A row produced by the store (`psycopg2` cursor). `RealDictCursor`
normally yields dicts (`dict` constructor, field/value pairs in column
order), but `_execute_ai_sql` explicitly guards against other shapes with
`isinstance(result[0], dict)`, so the embedding keeps a non-dict case. -/
inductive Row where
  | dict (fields : List (String × String))
  | nonDict (txt : String)
deriving DecidableEq

/-- `isinstance(r, dict)` for a row. -/
def Row.isDict : Row → Bool
  | .dict _ => true
  | .nonDict _ => false

/-- The field (key) set of a row, in order. -/
def Row.fieldNames : Row → List String
  | .dict fs => fs.map Prod.fst
  | .nonDict _ => []

/-- The dict returned by `ai_search`: keys `movies`, `sql`, `interpretation`. -/
structure SearchResult where
  movies : List Row
  sql : String
  interpretation : String
deriving DecidableEq

/-- Result of a successful `json.loads` on a model response, restricted to
the two fields `_parse_ai_response` reads.  `none` models an absent key
(Python `parsed.get` default).  A key bound to a non-string JSON value
makes the source raise `AttributeError` on `.strip()`, which escapes
`_parse_ai_response` and is absorbed by `ai_search`'s outer handler; that
path is outside this record type. -/
structure ParsedJson where
  sql : Option String
  interpretation : Option String

/-- The fixed SQL text of `search_movies` (db_manager.py lines 171-196);
its projection is the MovieSummary field set. -/
def search_movies_query : String :=
  "SELECT m.movie_id, m.rank, m.cn_title, m.original_title, m.year, m.rating, m.poster_url, COALESCE(STRING_AGG(DISTINCT d.name, \x27, \x27), \x27\x27) AS directors, COALESCE(STRING_AGG(DISTINCT a.name, \x27, \x27), \x27\x27) AS actors FROM movie m LEFT JOIN movie_director md ON m.movie_id = md.movie_id LEFT JOIN director d ON md.director_id = d.director_id LEFT JOIN movie_actor ma ON m.movie_id = ma.movie_id LEFT JOIN actor a ON ma.actor_id = a.actor_id WHERE m.cn_title ILIKE %s OR m.original_title ILIKE %s OR EXISTS (SELECT 1 FROM movie_director md2 JOIN director d2 ON md2.director_id = d2.director_id WHERE md2.movie_id = m.movie_id AND d2.name ILIKE %s) OR EXISTS (SELECT 1 FROM movie_actor ma2 JOIN actor a2 ON ma2.actor_id = a2.actor_id WHERE ma2.movie_id = m.movie_id AND a2.name ILIKE %s) GROUP BY m.movie_id ORDER BY m.rank LIMIT 50"

/-- The MovieSummary field set: the columns projected by
`search_movies_query`. -/
def movieSummaryFields : List String :=
  ["movie_id", "rank", "cn_title", "original_title", "year", "rating",
   "poster_url", "directors", "actors"]

/-- `search_movies` (db_manager.py lines 169-198): runs the fixed keyword
query with the pattern `%keyword%` bound to its four placeholders.
`kwExec query pattern` models `execute_query(query, (pattern,)*4)`; the
claims that use it assume this collaborator is total. -/
def search_movies (kwExec : String → String → List Row) (keyword : String) :
    List Row :=
  kwExec search_movies_query ("%" ++ keyword ++ "%")

/-- The fallback result built (identically) at all four fallback sites of
`ai_search` (db_manager.py lines 210-214, 226-230, 239-243, 258-262). -/
def fallbackResult (kwExec : String → String → List Row)
    (user_input : String) : SearchResult :=
  { movies := search_movies kwExec user_input
  , sql := "SELECT * FROM movie WHERE cn_title ILIKE \x27%" ++ user_input ++ "%\x27"
  , interpretation := "关键词搜索: " ++ user_input }

/-- The first-found terminator truncation of `_parse_ai_response`
(db_manager.py lines 657-661): the `for terminator in [chr(96)*3, nn, rnrn]`
loop tries the three terminators in that fixed order and truncates at the
first one that occurs anywhere, then stops. -/
def truncateAtTerminator (s : String) : String :=
  match pyFind s "```" with
  | some idx => strTake s idx
  | none =>
    match pyFind s "\n\n" with
    | some idx => strTake s idx
    | none =>
      match pyFind s "\r\n\r\n" with
      | some idx => strTake s idx
      | none => s

/-- `_parse_ai_response` (db_manager.py lines 636-665).  `jsonLoads`
models `json.loads`; it is applied to `response.strip()` and returns
`none` exactly when the source would raise `json.JSONDecodeError`.
Returns `(statement?, interpretation)`. -/
def parse_ai_response (jsonLoads : String → Option ParsedJson)
    (response : String) : Option String × String :=
  match jsonLoads (pyStrip response) with
  | some parsed =>
    let sql := pyStrip (parsed.sql.getD "")
    let interpretation := pyStrip (parsed.interpretation.getD "AI生成的查询")
    if !sql.isEmpty && pyStartsWith (pyUpper sql) "SELECT" then
      (some sql, interpretation)
    else
      (none, interpretation)
  | none =>
    match pyFind (pyUpper response) "SELECT" with
    | some sqlStart =>
      let c1 := truncateAtTerminator (strDrop response sqlStart)
      let c2 := pyRstripComma (pyStrip c1)
      if pyStartsWith (pyUpper c2) "SELECT" then (some c2, "从文本中提取的查询")
      else (none, "无法解析AI响应")
    | none => (none, "无法解析AI响应")

/-- `_execute_ai_sql` (db_manager.py lines 667-682).  `store` models
`execute_query` on the generated statement; `Except.error` models a raised
execution error, which the source catches and converts to `[]`.  The
store is consulted only after the `SELECT` gate passes. -/
def execute_ai_sql (store : String → Except String (List Row))
    (sql_query : String) : List Row :=
  if sql_query.isEmpty || !pyStartsWith (pyStrip (pyUpper sql_query)) "SELECT" then
    []
  else
    match store sql_query with
    | .error _ => []
    | .ok result =>
      match result with
      | [] => []
      | r :: rs => if r.isDict then (r :: rs).take 50 else r :: rs

/-- `ai_search` (db_manager.py lines 200-262).  Collaborators:
`apiKey` models `Config.DEEPSEEK_API_KEY` (absent or empty means
unconfigured); `buildPrompt` models `_build_ai_search_prompt`, a fixed
deterministic template whose text only feeds the model call; `callApi`
models `_call_deepseek_api`, which catches its own errors and returns
`none` on any failure; `jsonLoads` and `store` are as above; `kwExec` is
the keyword-search collaborator, assumed total.  With every collaborator
that can raise modelled by its caught result, the source's outer
`except` branch (which returns the same `fallbackResult`) is unreachable. -/
def ai_search (apiKey : Option String) (buildPrompt : String → String)
    (callApi : String → Option String)
    (jsonLoads : String → Option ParsedJson)
    (store : String → Except String (List Row))
    (kwExec : String → String → List Row)
    (user_input : String) : SearchResult :=
  if (apiKey.getD "").isEmpty then fallbackResult kwExec user_input
  else
    match callApi (buildPrompt user_input) with
    | none => fallbackResult kwExec user_input
    | some response =>
      match parse_ai_response jsonLoads response with
      | (none, _) => fallbackResult kwExec user_input
      | (some sqlQuery, interpretation) =>
        if sqlQuery.isEmpty then fallbackResult kwExec user_input
        else
          { movies := execute_ai_sql store sqlQuery
          , sql := sqlQuery
          , interpretation := interpretation }

/-- `sub in s` / `s.find(sub) != -1`: substring occurrence. -/
def containsSubstr (s sub : String) : Bool := (pyFind s sub).isSome

/-!
Embedding of `src/backend/utils/intro_loader.py`.
The JSON value read from `Intro.json` is modelled by `Json`; the file
state is an `Option Json`: `none` models both `FileNotFoundError` and
`json.JSONDecodeError`, the two read failures the source catches (both
return an empty cache).  Raised `AttributeError`s (a list item that is
not an object, or a truthy non-string `introduction` value) are modelled
with `Except.error`.
-/

/-- A JSON value, as produced by `json.load`. -/
inductive Json where
  | null
  | str (s : String)
  | num (n : Int)
  | bool (b : Bool)
  | arr (items : List Json)
  | obj (fields : List (String × Json))

/-- Python truthiness of a JSON value (`x or ''` tests this). -/
def jsonFalsy : Json → Bool
  | .null => true
  | .str s => s.isEmpty
  | .num n => n = 0
  | .bool b => !b
  | .arr l => l.isEmpty
  | .obj l => l.isEmpty

/-- `item.get(key)` on a JSON object's fields (default `None`). -/
def pyGet (fields : List (String × Json)) (key : String) : Json :=
  match fields.lookup key with
  | some v => v
  | none => Json.null

/-- Python `str()` of a JSON value.  Containers are abbreviated (the
source only ever applies `str` to an `id` field; a container there is
pathological and never looked up by the claims). -/
def pyStr : Json → String
  | .null => "None"
  | .str s => s
  | .num n => toString n
  | .bool b => if b then "True" else "False"
  | .arr _ => "[...]"
  | .obj _ => "\x7b...\x7d"

/-- One iteration of the cache-building loop of `_build_intro_cache`
(intro_loader.py lines 26-30): yields `none` when the entry is skipped
(empty `douban_id`), `some (key, value)` when inserted, and an error when
the source would raise `AttributeError`. -/
def buildEntry (item : Json) : Except String (Option (String × String)) :=
  match item with
  | .obj fields =>
    let idv := pyGet fields "id"
    let douban_id := pyStrip (pyStr (if jsonFalsy idv then Json.str "" else idv))
    let iv := pyGet fields "introduction"
    match (if jsonFalsy iv then Json.str "" else iv) with
    | .str s =>
      .ok (if douban_id.isEmpty then none else some (douban_id, pyStrip s))
    | _ => .error "AttributeError"
  | _ => .error "AttributeError"

/-- The cache-building loop over the items, in list order; Python dict
insertion lets a later duplicate key overwrite an earlier one, which
`dictGet` accounts for by taking the last binding. -/
def buildCacheItems : List Json → Except String (List (String × String))
  | [] => .ok []
  | item :: rest =>
    match buildEntry item with
    | .error e => .error e
    | .ok none => buildCacheItems rest
    | .ok (some kv) =>
      match buildCacheItems rest with
      | .error e => .error e
      | .ok l => .ok (kv :: l)

/-- `_build_intro_cache` (intro_loader.py lines 13-31): a missing or
unparsable file yields the empty cache; non-list JSON content yields the
empty item list (`items = data if isinstance(data, list) else []`). -/
def build_intro_cache (fileContent : Option Json) :
    Except String (List (String × String)) :=
  match fileContent with
  | none => .ok []
  | some data =>
    buildCacheItems (match data with | .arr l => l | _ => [])

/-- Python `dict.get(key, '')` on the insertion-ordered binding list:
the last binding for `key` wins. -/
def dictGet (l : List (String × String)) (key : String) : String :=
  match l.reverse.lookup key with
  | some v => v
  | none => ""

/-- `get_movie_introduction` (intro_loader.py lines 41-45), composed with
the (first-call) `load_intro_cache` read of the file state.  `douban_id`
is `None` or a string; a falsy one short-circuits to `''`. -/
def get_movie_introduction (douban_id : Option String)
    (fileContent : Option Json) : Except String String :=
  match douban_id with
  | none => .ok ""
  | some s =>
    if s.isEmpty then .ok ""
    else
      match build_intro_cache fileContent with
      | .error e => .error e
      | .ok cache => .ok (dictGet cache s)

/-! ### Helper lemmas -/

lemma toList_mk (l : List Char) : (String.mk l).toList = l := rfl

lemma toList_append (s t : String) : (s ++ t).toList = s.toList ++ t.toList := rfl

/-- A list that starts with `SELECT` still starts with `SELECT` after
Python `strip()` (the leading `S` and trailing `T` are not whitespace). -/
lemma selPrefixStripL (l : List Char)
    (h : ("SELECT".toList).isPrefixOf l = true) :
    ("SELECT".toList).isPrefixOf (pyStripL l) = true := by
  rw [ List.isPrefixOf_iff_prefix] at h ⊢
  obtain ⟨t, rfl⟩ := h
  unfold pyStripL
  rw [List.dropWhile_append]
  have h1 : List.dropWhile isPyWs "SELECT".toList = "SELECT".toList := by decide
  rw [h1]
  have h2 : ("SELECT".toList).isEmpty = false := by decide
  rw [h2]
  simp only [Bool.false_eq_true, if_false, List.reverse_append]
  rw [List.dropWhile_append]
  by_cases hE : (List.dropWhile isPyWs t.reverse).isEmpty
  · rw [if_pos hE]
    have h3 : List.dropWhile isPyWs ("SELECT".toList).reverse =
        ("SELECT".toList).reverse := by decide
    rw [h3, List.reverse_reverse]
  · rw [if_neg hE, List.reverse_append, List.reverse_reverse]
    exact List.prefix_append _ _

/-- Stripping preserves a leading `SELECT`. -/
lemma startsSelect_strip (s : String) (h : pyStartsWith s "SELECT" = true) :
    pyStartsWith (pyStrip s) "SELECT" = true := by
  unfold pyStartsWith pyStrip at *
  exact selPrefixStripL s.toList h

/-- Two candidate prefixes with different first characters cannot both be
prefixes of the same list. -/
lemma not_both_prefixes (a b : Char) (p q l : List Char) (hne : a ≠ b)
    (hp : (a :: p).isPrefixOf l = true) (hq : (b :: q).isPrefixOf l = true) :
    False := by
  cases l with
  | nil => simp [List.isPrefixOf] at hp
  | cons c t =>
    simp only [List.isPrefixOf, Bool.and_eq_true, beq_iff_eq] at hp hq
    exact hne (hp.1.trans hq.1.symm)

/-- A list starting with `SELECT` starts with none of the write verbs. -/
lemma select_excludes_write_verbs (l : List Char)
    (hs : ("SELECT".toList).isPrefixOf l = true) :
    ("INSERT".toList).isPrefixOf l = false ∧
    ("UPDATE".toList).isPrefixOf l = false ∧
    ("DELETE".toList).isPrefixOf l = false ∧
    ("DROP".toList).isPrefixOf l = false := by
  have hsel : "SELECT".toList = 'S' :: "ELECT".toList := by decide
  rw [hsel] at hs
  refine ⟨?_, ?_, ?_, ?_⟩
  · cases h2 : ("INSERT".toList).isPrefixOf l with
    | false => rfl
    | true =>
      rw [show "INSERT".toList = 'I' :: "NSERT".toList from by decide] at h2
      exact absurd (not_both_prefixes _ _ _ _ _ (by decide) hs h2) not_false
  · cases h2 : ("UPDATE".toList).isPrefixOf l with
    | false => rfl
    | true =>
      rw [show "UPDATE".toList = 'U' :: "PDATE".toList from by decide] at h2
      exact absurd (not_both_prefixes _ _ _ _ _ (by decide) hs h2) not_false
  · cases h2 : ("DELETE".toList).isPrefixOf l with
    | false => rfl
    | true =>
      rw [show "DELETE".toList = 'D' :: "ELETE".toList from by decide] at h2
      exact absurd (not_both_prefixes _ _ _ _ _ (by decide) hs h2) not_false
  · cases h2 : ("DROP".toList).isPrefixOf l with
    | false => rfl
    | true =>
      rw [show "DROP".toList = 'D' :: "ROP".toList from by decide] at h2
      exact absurd (not_both_prefixes _ _ _ _ _ (by decide) hs h2) not_false

/-- Any statement returned by `_parse_ai_response` passed its own
`upper().startswith` check. -/
lemma parse_some_select (jl : String → Option ParsedJson)
    (resp sql interp : String)
    (h : parse_ai_response jl resp = (some sql, interp)) :
    pyStartsWith (pyUpper sql) "SELECT" = true := by
  unfold parse_ai_response at h
  split at h
  · dsimp only at h
    split at h
    · rename_i hcond
      obtain ⟨h1, h2⟩ := Prod.mk.injEq .. ▸ h
      cases h1
      exact (Bool.and_eq_true ..).mp hcond |>.2
    · simp at h
  · split at h
    · dsimp only at h
      split at h
      · rename_i hcond
        obtain ⟨h1, h2⟩ := Prod.mk.injEq .. ▸ h
        cases h1
        exact hcond
      · simp at h
    · simp at h

/-- The gate of `_execute_ai_sql`: a statement that fails the
`upper().strip().startswith` check yields `[]` for every store. -/
lemma exec_gate_rejects (store : String → Except String (List Row))
    (sql : String)
    (h : pyStartsWith (pyStrip (pyUpper sql)) "SELECT" = false) :
    execute_ai_sql store sql = [] := by
  unfold execute_ai_sql
  rw [if_pos]
  rw [h]
  simp

/-! ### Claim theorems -/

/-- Claim C1: read-only security boundary.  (i) Every statement the
Response Parser (`_parse_ai_response`) returns starts, after trimming and
case-folding, with `SELECT`.  (ii) The Executor (`_execute_ai_sql`)
returns the empty result for any candidate whose trimmed, case-folded
text does not start with `SELECT` — for every store, i.e. without
executing.  (iii) Hence statements beginning with `INSERT`, `UPDATE`,
`DELETE`, or `DROP` always produce the empty result on the AI path. -/
theorem C1_read_only_boundary :
    (∀ (jsonLoads : String → Option ParsedJson) (response sql interp : String),
        parse_ai_response jsonLoads response = (some sql, interp) →
        pyStartsWith (pyStrip (pyUpper sql)) "SELECT" = true) ∧
    (∀ (store : String → Except String (List Row)) (stmt : String),
        pyStartsWith (pyStrip (pyUpper stmt)) "SELECT" = false →
        execute_ai_sql store stmt = []) ∧
    (∀ (store : String → Except String (List Row)) (stmt : String),
        (pyStartsWith (pyStrip (pyUpper stmt)) "INSERT" ||
         pyStartsWith (pyStrip (pyUpper stmt)) "UPDATE" ||
         pyStartsWith (pyStrip (pyUpper stmt)) "DELETE" ||
         pyStartsWith (pyStrip (pyUpper stmt)) "DROP") = true →
        execute_ai_sql store stmt = []) := by
  refine ⟨?_, ?_, ?_⟩
  · intro jl resp sql interp h
    exact startsSelect_strip _ (parse_some_select jl resp sql interp h)
  · intro store stmt h
    exact exec_gate_rejects store stmt h
  · intro store stmt h
    apply exec_gate_rejects
    cases hg : pyStartsWith (pyStrip (pyUpper stmt)) "SELECT" with
    | false => rfl
    | true =>
      exfalso
      unfold pyStartsWith at h hg
      have hcl := select_excludes_write_verbs _ hg
      simp only [Bool.or_eq_true] at h
      rcases h with ((h1 | h1) | h1) | h1
      · rw [hcl.1] at h1; exact Bool.false_ne_true h1
      · rw [hcl.2.1] at h1; exact Bool.false_ne_true h1
      · rw [hcl.2.2.1] at h1; exact Bool.false_ne_true h1
      · rw [hcl.2.2.2] at h1; exact Bool.false_ne_true h1

/-- Witness for C1 at concrete inputs: a parsed statement that does start
with `SELECT`, and the executor rejecting `DELETE` and `DROP` statements
even when the store would have returned rows for them. -/
theorem C1_read_only_boundary_witness :
    pyStartsWith (pyStrip (pyUpper "SELECT m.movie_id FROM movie m")) "SELECT" = true ∧
    execute_ai_sql (fun _ => Except.ok [Row.dict [("movie_id", "1")]])
      "DELETE FROM movie" = [] ∧
    execute_ai_sql (fun _ => Except.ok [Row.dict [("movie_id", "1")]])
      "DROP TABLE movie; --" = [] := by
  refine ⟨?_, ?_, ?_⟩
  · exact C1_read_only_boundary.1 (fun _ => none) "SELECT m.movie_id FROM movie m"
      "SELECT m.movie_id FROM movie m" "从文本中提取的查询" (by decide)
  · exact C1_read_only_boundary.2.2 _ "DELETE FROM movie" (by decide)
  · exact C1_read_only_boundary.2.2 _ "DROP TABLE movie; --" (by decide)

/-- Claim C2: totality of `interpret`.  For every input string and all
(total) collaborators, `ai_search` returns a `SearchResult` record — it
either is the fallback record or carries an executed statement with its
interpretation; in the embedding it is a total function, so it never
raises. -/
theorem C2_interpret_total (apiKey : Option String)
    (buildPrompt : String → String) (callApi : String → Option String)
    (jsonLoads : String → Option ParsedJson)
    (store : String → Except String (List Row))
    (kwExec : String → String → List Row) (userText : String) :
    ai_search apiKey buildPrompt callApi jsonLoads store kwExec userText =
      fallbackResult kwExec userText ∨
    ∃ sql interp,
      ai_search apiKey buildPrompt callApi jsonLoads store kwExec userText =
        { movies := execute_ai_sql store sql, sql := sql,
          interpretation := interp } := by
  unfold ai_search
  split
  · exact Or.inl rfl
  · split
    · exact Or.inl rfl
    · split
      · exact Or.inl rfl
      · split
        · exact Or.inl rfl
        · exact Or.inr ⟨_, _, rfl⟩

/-- A store that rejects every statement (models an execution error
raised by `execute_query`). -/
def errStore : String → Except String (List Row) :=
  fun _ => Except.error "syntax error"

/-- A keyword-search collaborator returning one MovieSummary-shaped row. -/
def kwRowFields : List (String × String) :=
  [("movie_id", "1"), ("rank", "1"), ("cn_title", "海上钢琴师"),
   ("original_title", "La leggenda del pianista"), ("year", "1998"),
   ("rating", "9.3"), ("poster_url", "p.jpg"),
   ("directors", "Giuseppe Tornatore"), ("actors", "Tim Roth")]

/-- Keyword-search collaborator used by concrete counterexamples. -/
def kwStoreOne : String → String → List Row := fun _ _ => [Row.dict kwRowFields]

/-- A structured model response whose statement is `SELECT 1`. -/
def respSelectOne : String :=
  "\x7b\x22sql\x22: \x22SELECT 1\x22, \x22interpretation\x22: \x22AI解释\x22\x7d"

/-- `json.loads` outcome for `respSelectOne`. -/
def jlSelectOne : String → Option ParsedJson :=
  fun _ => some { sql := some "SELECT 1", interpretation := some "AI解释" }

/-- Claim C3 counterexample: with a configured key, a model response whose
statement is `SELECT 1`, and a store that rejects it, `ai_search` returns
an empty row set paired with the generated SQL and the AI interpretation —
not the keyword-search fallback (whose rows here are non-empty). -/
theorem C3_execution_failure_cex :
    ai_search (some "k") (fun s => s) (fun _ => some respSelectOne)
        jlSelectOne errStore kwStoreOne "战争" =
      { movies := [], sql := "SELECT 1", interpretation := "AI解释" } ∧
    ai_search (some "k") (fun s => s) (fun _ => some respSelectOne)
        jlSelectOne errStore kwStoreOne "战争" ≠
      fallbackResult kwStoreOne "战争" ∧
    (fallbackResult kwStoreOne "战争").movies = [Row.dict kwRowFields] := by
  refine ⟨by decide, by decide, by decide⟩

/-- Claim C3 amended: when the pipeline reaches the Executor with a parsed
statement and the store rejects it, `ai_search` returns the empty movie
list paired with the generated SQL and the AI interpretation; it does not
fall back to keyword search. -/
theorem C3_execution_failure_amended (apiKey : Option String)
    (buildPrompt : String → String) (callApi : String → Option String)
    (jsonLoads : String → Option ParsedJson)
    (store : String → Except String (List Row))
    (kwExec : String → String → List Row)
    (userText response sql interp e : String)
    (h0 : (apiKey.getD "").isEmpty = false)
    (h1 : callApi (buildPrompt userText) = some response)
    (h2 : parse_ai_response jsonLoads response = (some sql, interp))
    (h3 : sql.isEmpty = false)
    (h4 : store sql = Except.error e) :
    ai_search apiKey buildPrompt callApi jsonLoads store kwExec userText =
      { movies := [], sql := sql, interpretation := interp } := by
  have hsel : pyStartsWith (pyStrip (pyUpper sql)) "SELECT" = true :=
    startsSelect_strip _ (parse_some_select jsonLoads response sql interp h2)
  have hexec : execute_ai_sql store sql = [] := by
    simp [execute_ai_sql, h3, hsel, h4]
  simp [ai_search, h0, h1, h2, h3, hexec]

/-- Witness for C3's amended theorem at the counterexample's inputs. -/
theorem C3_execution_failure_witness :
    ai_search (some "k") (fun s => s) (fun _ => some respSelectOne)
        jlSelectOne errStore kwStoreOne "战争" =
      { movies := [], sql := "SELECT 1", interpretation := "AI解释" } :=
  C3_execution_failure_amended (some "k") (fun s => s)
    (fun _ => some respSelectOne) jlSelectOne errStore kwStoreOne
    "战争" respSelectOne "SELECT 1" "AI解释" "syntax error"
    (by decide) (by decide) (by decide) (by decide) rfl

/-- Claim C4: any execution error raised by the store inside
`_execute_ai_sql` is caught and converted to the empty result list; the
function's return type shows nothing is propagated. -/
theorem C4_exec_errors_absorbed (store : String → Except String (List Row))
    (sql e : String) (h : store sql = Except.error e) :
    execute_ai_sql store sql = [] := by
  unfold execute_ai_sql
  split
  · rfl
  · rw [h]

/-- Witness for C4: a store raising on a well-formed `SELECT`. -/
theorem C4_exec_errors_absorbed_witness :
    execute_ai_sql errStore "SELECT movie_id FROM movie" = [] :=
  C4_exec_errors_absorbed errStore "SELECT movie_id FROM movie"
    "syntax error" rfl

/-- A store returning 51 rows that are not dicts (e.g. a cursor without
`RealDictCursor`, yielding tuples). -/
def bigTupleStore : String → Except String (List Row) :=
  fun _ => Except.ok (List.replicate 51 (Row.nonDict "(1, 2)"))

/-- Claim C5 counterexample: the validator accepts `SELECT 1`, the store
returns 51 non-dict rows, and `_execute_ai_sql` returns all 51 of them —
the 50-row cap is not applied to that row shape. -/
theorem C5_row_cap_cex :
    pyStartsWith (pyStrip (pyUpper "SELECT 1")) "SELECT" = true ∧
    (execute_ai_sql bigTupleStore "SELECT 1").length = 51 ∧
    ¬(execute_ai_sql bigTupleStore "SELECT 1").length ≤ 50 := by
  refine ⟨by decide, by decide, by decide⟩

/-- Claim C5 amended: the 50-row cap holds whenever the store's rows are
dicts (the shape `RealDictCursor` produces); a result list whose first
row is not a dict is returned untruncated. -/
theorem C5_row_cap_amended (store : String → Except String (List Row))
    (sql : String) (rows : List Row)
    (h1 : store sql = Except.ok rows)
    (h2 : ∀ r ∈ rows, r.isDict = true) :
    (execute_ai_sql store sql).length ≤ 50 := by
  unfold execute_ai_sql
  split
  · simp
  · split
    · simp
    · rename_i rows' heq
      rw [h1] at heq
      injection heq with heq2
      subst heq2
      cases rows with
      | nil => simp
      | cons r rs =>
        have hd := h2 r (List.mem_cons_self r rs)
        show (if r.isDict = true then (r :: rs).take 50 else r :: rs).length ≤ 50
        rw [hd]
        simp [List.length_take]

/-- Witness for C5's amended theorem: three dict rows stay under the cap. -/
theorem C5_row_cap_witness :
    (execute_ai_sql
      (fun _ => Except.ok (List.replicate 3 (Row.dict kwRowFields)))
      "SELECT 1").length ≤ 50 :=
  C5_row_cap_amended _ "SELECT 1" (List.replicate 3 (Row.dict kwRowFields))
    rfl (by decide)

/-- Claim C6 counterexample: in the non-JSON response below the double
line break (index 8) occurs before the code fence (index 11), so the
claimed earliest-terminator rule would truncate to `SELECT 1`; the parser
instead truncates at the code fence because the terminator list is tried
in a fixed priority order, returning the statement with the embedded
double line break. -/
theorem C6_scan_cex :
    pyFind "SELECT 1\n\nx```y" "\n\n" = some 8 ∧
    pyFind "SELECT 1\n\nx```y" "```" = some 11 ∧
    parse_ai_response (fun _ => none) "SELECT 1\n\nx```y" =
      (some "SELECT 1\n\nx", "从文本中提取的查询") ∧
    parse_ai_response (fun _ => none) "SELECT 1\n\nx```y" ≠
      (some "SELECT 1", "从文本中提取的查询") := by
  refine ⟨by decide, by decide, by decide, by decide⟩

/-- Claim C6 amended: on a non-JSON response containing `SELECT`, the
parser takes the substring from the first case-insensitive `SELECT`,
truncates it at the code-fence marker if one occurs anywhere, otherwise
at the first double line break, otherwise at the first `\r\n\r\n` (the
terminator earlier in this fixed order wins even when another occurs
earlier in the text), strips whitespace and trailing commas, and returns
the result exactly when it still starts with `SELECT`. -/
theorem C6_scan_amended (resp : String) (i : Nat)
    (h : pyFind (pyUpper resp) "SELECT" = some i) :
    parse_ai_response (fun _ => none) resp =
      (if pyStartsWith
            (pyUpper (pyRstripComma (pyStrip (truncateAtTerminator (strDrop resp i)))))
            "SELECT"
        then (some (pyRstripComma (pyStrip (truncateAtTerminator (strDrop resp i)))),
              "从文本中提取的查询")
        else (none, "无法解析AI响应")) ∧
    (∀ s j, pyFind s "```" = some j →
        truncateAtTerminator s = strTake s j) ∧
    (∀ s j, pyFind s "```" = none → pyFind s "\n\n" = some j →
        truncateAtTerminator s = strTake s j) ∧
    (∀ s j, pyFind s "```" = none → pyFind s "\n\n" = none →
        pyFind s "\r\n\r\n" = some j → truncateAtTerminator s = strTake s j) ∧
    (∀ s, pyFind s "```" = none → pyFind s "\n\n" = none →
        pyFind s "\r\n\r\n" = none → truncateAtTerminator s = s) := by
  refine ⟨?_, ?_, ?_, ?_, ?_⟩
  · simp [parse_ai_response, h]
  · intro s j hj
    simp [truncateAtTerminator, hj]
  · intro s j h1 hj
    simp [truncateAtTerminator, h1, hj]
  · intro s j h1 h2 hj
    simp [truncateAtTerminator, h1, h2, hj]
  · intro s h1 h2 h3
    simp [truncateAtTerminator, h1, h2, h3]

/-- Witness for C6's amended theorem: a fenced statement is extracted. -/
theorem C6_scan_witness :
    parse_ai_response (fun _ => none) "SELECT 1 FROM movie```x" =
      (some "SELECT 1 FROM movie", "从文本中提取的查询") := by
  have h := C6_scan_amended "SELECT 1 FROM movie```x" 0 (by decide)
  exact h.1.trans (by decide)

/-- A well-formed JSON model response whose `sql` field is a `DROP`
statement while its `interpretation` text embeds a `SELECT`. -/
def respDropJson : String :=
  "\x7b\x22sql\x22: \x22DROP TABLE movie\x22, \x22interpretation\x22: \x22见 SELECT 1 FROM movie\x22\x7d"

/-- `json.loads` outcome for `respDropJson`. -/
def jlDrop : String → Option ParsedJson :=
  fun _ => some { sql := some "DROP TABLE movie",
                  interpretation := some "见 SELECT 1 FROM movie" }

/-- Claim C7 counterexample: on a response that parses as JSON with a
non-`SELECT` `sql` field, the parser returns the no-statement signal
immediately; raw-text scanning of the very same response text would have
recovered an embedded `SELECT` statement, so the parser demonstrably does
not fall back to it. -/
theorem C7_parser_cex :
    parse_ai_response jlDrop respDropJson = (none, "见 SELECT 1 FROM movie") ∧
    (parse_ai_response (fun _ => none) respDropJson).1 =
      some "SELECT 1 FROM movie\x22\x7d" ∧
    parse_ai_response jlDrop respDropJson ≠
      parse_ai_response (fun _ => none) respDropJson := by
  refine ⟨by decide, by decide, by decide⟩

/-- Claim C7 amended: when the structured (JSON) parse succeeds but the
`sql` field is empty or does not start with `SELECT` after trimming and
upper-casing, the parser immediately returns the no-statement signal with
the parsed interpretation; raw-text scanning happens only when the JSON
parse itself fails. -/
theorem C7_parser_amended (jl : String → Option ParsedJson) (resp : String)
    (pj : ParsedJson)
    (h1 : jl (pyStrip resp) = some pj)
    (h2 : (!(pyStrip (pj.sql.getD "")).isEmpty &&
           pyStartsWith (pyUpper (pyStrip (pj.sql.getD ""))) "SELECT") = false) :
    parse_ai_response jl resp =
      (none, pyStrip (pj.interpretation.getD "AI生成的查询")) := by
  simp [parse_ai_response, h1, h2]

/-- Witness for C7's amended theorem at the counterexample's response. -/
theorem C7_parser_witness :
    parse_ai_response jlDrop respDropJson =
      (none, pyStrip ((some "见 SELECT 1 FROM movie").getD "AI生成的查询")) :=
  C7_parser_amended jlDrop respDropJson
    { sql := some "DROP TABLE movie",
      interpretation := some "见 SELECT 1 FROM movie" }
    rfl (by decide)

/-- If `n` occurs at the front of `rest`, `findSubL` finds it somewhere in
`pre ++ rest`. -/
lemma findSubL_isSome_of_prefixOf (n : List Char) :
    ∀ (pre rest : List Char), n.isPrefixOf rest = true →
    ∀ i, (findSubL n (pre ++ rest) i).isSome = true := by
  intro pre
  induction pre with
  | nil =>
    intro rest h i
    cases rest with
    | nil =>
      cases n with
      | nil => simp [findSubL]
      | cons a as => simp [List.isPrefixOf] at h
    | cons c t =>
      simp [findSubL, h]
  | cons a p ih =>
    intro rest h i
    simp only [List.cons_append, findSubL]
    split
    · simp
    · exact ih rest h (i + 1)

/-- A prefix of `b` is a prefix of `b ++ c`. -/
lemma prefixOf_append_left (a b c : List Char) (h : a.isPrefixOf b = true) :
    a.isPrefixOf (b ++ c) = true := by
  rw [ List.isPrefixOf_iff_prefix] at h ⊢
  exact h.trans (List.prefix_append b c)

/-- The fallback interpretation string contains the keyword-search tag. -/
lemma fallback_interp_contains (u : String) :
    containsSubstr ("关键词搜索: " ++ u) "关键词搜索" = true := by
  unfold containsSubstr pyFind
  have h0 : ("关键词搜索".toList).isPrefixOf (("关键词搜索: " ++ u).toList) = true := by
    rw [toList_append]
    exact prefixOf_append_left _ _ _ (by decide)
  exact findSubL_isSome_of_prefixOf _ [] _ h0 0

/-- The fallback pseudo-SQL string contains the `ILIKE` filter on the raw
user text. -/
lemma fallback_sql_contains (u : String) :
    containsSubstr ("SELECT * FROM movie WHERE cn_title ILIKE \x27%" ++ u ++ "%\x27")
      ("cn_title ILIKE \x27%" ++ u ++ "%\x27") = true := by
  unfold containsSubstr pyFind
  have hsplit : ("SELECT * FROM movie WHERE cn_title ILIKE \x27%" ++ u ++ "%\x27").toList =
      "SELECT * FROM movie WHERE ".toList ++
        ("cn_title ILIKE \x27%" ++ u ++ "%\x27").toList := by
    simp only [toList_append]
    rw [show ("SELECT * FROM movie WHERE cn_title ILIKE \x27%".toList) =
        "SELECT * FROM movie WHERE ".toList ++ "cn_title ILIKE \x27%".toList
      from by decide]
    simp [List.append_assoc]
  rw [hsplit]
  apply findSubL_isSome_of_prefixOf
  rw [ List.isPrefixOf_iff_prefix]

/-- Claim C8: with no language-model credential configured (absent or
empty key), `ai_search` immediately returns the fallback outcome: the
keyword-search rows for the user text, an interpretation containing
"关键词搜索", and a generated-SQL string containing the
`cn_title ILIKE` filter on the user text. -/
theorem C8_no_credential_fallback (apiKey : Option String)
    (buildPrompt : String → String) (callApi : String → Option String)
    (jsonLoads : String → Option ParsedJson)
    (store : String → Except String (List Row))
    (kwExec : String → String → List Row) (userText : String)
    (h : (apiKey.getD "").isEmpty = true) :
    ai_search apiKey buildPrompt callApi jsonLoads store kwExec userText =
      fallbackResult kwExec userText ∧
    (fallbackResult kwExec userText).movies = search_movies kwExec userText ∧
    containsSubstr (fallbackResult kwExec userText).interpretation
      "关键词搜索" = true ∧
    containsSubstr (fallbackResult kwExec userText).sql
      ("cn_title ILIKE \x27%" ++ userText ++ "%\x27") = true := by
  refine ⟨?_, rfl, ?_, ?_⟩
  · simp [ai_search, h]
  · exact fallback_interp_contains userText
  · exact fallback_sql_contains userText

/-- Witness for C8 at `interpret("高分科幻")` with an unset credential. -/
theorem C8_no_credential_witness :
    ai_search none (fun s => s) (fun _ => none) (fun _ => none) errStore
        kwStoreOne "高分科幻" =
      fallbackResult kwStoreOne "高分科幻" ∧
    containsSubstr (fallbackResult kwStoreOne "高分科幻").interpretation
      "关键词搜索" = true ∧
    containsSubstr (fallbackResult kwStoreOne "高分科幻").sql
      ("cn_title ILIKE \x27%" ++ "高分科幻" ++ "%\x27") = true := by
  have h := C8_no_credential_fallback none (fun s => s) (fun _ => none)
    (fun _ => none) errStore kwStoreOne "高分科幻" (by decide)
  exact ⟨h.1, h.2.2.1, h.2.2.2⟩

/-- A store answering the generated statement with a single row whose only
field is `x` (e.g. for `SELECT 1 AS x`). -/
def oddStore : String → Except String (List Row) :=
  fun _ => Except.ok [Row.dict [("x", "1")]]

/-- A structured model response generating `SELECT 1 AS x`. -/
def respSelectX : String :=
  "\x7b\x22sql\x22: \x22SELECT 1 AS x\x22, \x22interpretation\x22: \x22解释\x22\x7d"

/-- `json.loads` outcome for `respSelectX`. -/
def jlSelectX : String → Option ParsedJson :=
  fun _ => some { sql := some "SELECT 1 AS x", interpretation := some "解释" }

/-- Claim C9 counterexample: nothing in the executor reshapes rows, so a
generated statement projecting a single column `x` makes `ai_search`
return a row whose field set differs from the MovieSummary field set of
the fallback keyword-search row — callers can distinguish the paths. -/
theorem C9_shape_parity_cex :
    (ai_search (some "k") (fun s => s) (fun _ => some respSelectX) jlSelectX
        oddStore kwStoreOne "爱情").movies = [Row.dict [("x", "1")]] ∧
    (Row.dict [("x", "1")]).fieldNames ≠ movieSummaryFields ∧
    search_movies kwStoreOne "爱情" = [Row.dict kwRowFields] ∧
    (Row.dict kwRowFields).fieldNames = movieSummaryFields := by
  refine ⟨by decide, by decide, by decide, by decide⟩

/-- Claim C9 amended: the executor returns the store's rows unchanged, up
to the 50-row truncation — every returned row is one of the store's rows,
with its field set untouched.  Shape parity with the fallback path is
therefore not enforced by the code; it holds exactly when the store's
rows for the generated statement already carry the MovieSummary field
set. -/
theorem C9_shape_parity_amended (store : String → Except String (List Row))
    (sql : String) (rows : List Row) (h : store sql = Except.ok rows) :
    execute_ai_sql store sql <+: rows ∧
    (∀ r ∈ execute_ai_sql store sql, r ∈ rows) ∧
    ((∀ r ∈ rows, r.fieldNames = movieSummaryFields) →
      ∀ r ∈ execute_ai_sql store sql, r.fieldNames = movieSummaryFields) := by
  have hpre : execute_ai_sql store sql <+: rows := by
    unfold execute_ai_sql
    split
    · exact List.nil_prefix
    · split
      · rename_i e heq
        rw [h] at heq
        simp at heq
      · rename_i rows' heq
        rw [h] at heq
        injection heq with h5
        subst h5
        cases rows with
        | nil => exact List.nil_prefix
        | cons r rs =>
          show (if r.isDict = true then (r :: rs).take 50 else r :: rs) <+: r :: rs
          split
          · exact List.take_prefix _ _
          · exact List.prefix_rfl
  exact ⟨hpre, fun r hr => hpre.subset hr,
    fun hall r hr => hall r (hpre.subset hr)⟩

/-- Witness for C9's amended theorem at the counterexample's store. -/
theorem C9_shape_parity_witness :
    execute_ai_sql oddStore "SELECT 1 AS x" <+: [Row.dict [("x", "1")]] :=
  (C9_shape_parity_amended oddStore "SELECT 1 AS x"
    [Row.dict [("x", "1")]] rfl).1

/-- `isinstance(data, list)` for a JSON value. -/
def Json.isArr : Json → Bool
  | .arr _ => true
  | _ => false

/-- Lookup-miss form of `get_movie_introduction`: a cache that builds
cleanly but has no binding for the key yields `''`. -/
lemma get_intro_miss (s : String) (fc : Option Json)
    (cache : List (String × String))
    (hc : build_intro_cache fc = Except.ok cache)
    (hl : cache.reverse.lookup s = none) :
    get_movie_introduction (some s) fc = Except.ok "" := by
  simp only [get_movie_introduction]
  split
  · rfl
  · rw [hc]
    simp [dictGet, hl]

/-- Claim C10: `get_movie_introduction` is total (its `Except` result is
always `ok`) and returns the empty string on every miss: for a `None` or
empty id, for a missing or unparsable introduction file, for non-list
file content, and for an id with no binding in a cleanly built cache. -/
theorem C10_intro_total_miss (douban_id : Option String)
    (fileContent : Option Json)
    (h : douban_id = none ∨ douban_id = some "" ∨ fileContent = none ∨
         (∃ j, fileContent = some j ∧ j.isArr = false) ∨
         (∃ cache, build_intro_cache fileContent = Except.ok cache ∧
            cache.reverse.lookup (douban_id.getD "") = none)) :
    get_movie_introduction douban_id fileContent = Except.ok "" := by
  rcases h with h | h | h | ⟨j, hj, hJ⟩ | ⟨cache, hc, hl⟩
  · subst h
    rfl
  · subst h
    rfl
  · subst h
    cases douban_id with
    | none => rfl
    | some s => exact get_intro_miss s none [] rfl rfl
  · subst hj
    cases douban_id with
    | none => rfl
    | some s =>
      refine get_intro_miss s (some j) [] ?_ rfl
      cases j <;> simp_all [build_intro_cache, buildCacheItems, Json.isArr]
  · cases douban_id with
    | none => rfl
    | some s => exact get_intro_miss s fileContent cache hc hl

/-- Witness for C10: an id absent from a well-formed introduction list. -/
theorem C10_intro_witness :
    get_movie_introduction (some "999")
      (some (Json.arr [Json.obj [("id", Json.str "1"),
        ("introduction", Json.str "简介")]])) = Except.ok "" :=
  C10_intro_total_miss (some "999")
    (some (Json.arr [Json.obj [("id", Json.str "1"),
      ("introduction", Json.str "简介")]]))
    (Or.inr (Or.inr (Or.inr (Or.inr ⟨[("1", "简介")], rfl, rfl⟩))))
